import Mathlib

/-!
Verification development for the NetSpec declarative network-state monitor.

The definitions below are a shallow embedding of the Go sources:
`internal/config` (types and `ValidateConfig`), `internal/evaluator`
(`EvaluateNotification` and its helpers), `internal/alerter` (the
event-driven alert engine, `FlapDetector`, `EscalationManager`),
`internal/collector` (`Connect`/backoff), and the reload closure in
`cmd/netspec/main.go`.  Go maps are modelled as association lists with
Go's zero-value lookup semantics; `time.Time`/`time.Duration` are
modelled as integer seconds.
-/

namespace NetSpec

/-! Association-list maps standing in for Go maps.  `lookupS` returns the
stored value; `getDS` additionally applies Go's zero-value semantics. -/

def lookupS {α : Type} (m : List (String × α)) (k : String) : Option α :=
  match m with
  | [] => none
  | (k', v) :: rest => if k' = k then some v else lookupS rest k

def insertS {α : Type} (m : List (String × α)) (k : String) (v : α) :
    List (String × α) :=
  (k, v) :: m.filter (fun p => p.1 ≠ k)

def eraseS {α : Type} (m : List (String × α)) (k : String) :
    List (String × α) :=
  m.filter (fun p => p.1 ≠ k)

def keysS {α : Type} (m : List (String × α)) : List String :=
  m.map (fun p => p.1)

/-! Configuration data model (internal/config/types.go, plus the
`DesiredState`/`Credentials`/`FlapDetection` wrappers whose struct file is
stale in the repo; their fields are taken from their uses in
`loader.go`, `part_004`, `part_005` and `main.go`). -/

structure MemberPolicy where
  mode : String
  minimum : Int
  perStackMinimum : Int
deriving DecidableEq, Repr

structure AlertSeverity where
  stateMismatch : String
  memberDown : String
  channelDown : String
  adminDown : String
deriving DecidableEq, Repr

def noSeverityOverrides : AlertSeverity := ⟨"", "", "", ""⟩

/-- InterfaceConfig: `Members *MemberConfig` is modelled by the required
list alone, because every use in the sources tests
`Members != nil && len(Members.Required) > 0`, which coincides with
`membersRequired ≠ []`. -/
structure InterfaceConfig where
  desiredState : String
  adminState : String
  membersRequired : List String
  memberPolicy : Option MemberPolicy
  alerts : AlertSeverity
deriving DecidableEq, Repr

structure DeviceConfig where
  address : String
  credentialsRef : String
  interfaces : List (String × InterfaceConfig)
deriving DecidableEq, Repr

structure GlobalConfig where
  defaultCredentials : String
  gnmiPort : Int
  collectionInterval : Int
deriving DecidableEq, Repr

structure DesiredStateConfig where
  global : GlobalConfig
  devices : List (String × DeviceConfig)
deriving DecidableEq, Repr

/-- ChannelConfig; the Go field `Type` is spelled `ctype` here. -/
structure ChannelConfig where
  ctype : String
  urlEnv : String
  escalationDelay : Int
deriving DecidableEq, Repr

structure AlertRule where
  channels : List String
deriving DecidableEq, Repr

structure FlapDetectionConfig where
  enabled : Bool
  threshold : Int
  window : Int
deriving DecidableEq, Repr

structure AlertBehavior where
  deduplicationWindow : Int
  flapDetection : FlapDetectionConfig
deriving DecidableEq, Repr

structure AlertConfig where
  channels : List (String × ChannelConfig)
  alertRules : List (String × AlertRule)
  alertBehavior : AlertBehavior
deriving DecidableEq, Repr

structure CredentialEntry where
  username : String
  passwordEnv : String
deriving DecidableEq, Repr

structure Config where
  desiredState : DesiredStateConfig
  alerts : AlertConfig
  credentials : List (String × CredentialEntry)
deriving DecidableEq, Repr

/-! ValidateConfig (internal/config/loader.go, lines 106-174).  Go map
iteration order is arbitrary; the embedding iterates in list order, which
changes at most which error is reported first, never whether an error is
reported. -/

def validateInterface (devName ifName : String) (ifCfg : InterfaceConfig) :
    Except String Unit := do
  if ifCfg.desiredState = "" then
    throw ("device " ++ devName ++ ", interface " ++ ifName ++ ": desired_state is required")
  if ifCfg.desiredState ≠ "up" ∧ ifCfg.desiredState ≠ "down" then
    throw ("device " ++ devName ++ ", interface " ++ ifName ++ ": desired_state must be 'up' or 'down'")
  if ifCfg.adminState ≠ "" ∧ ifCfg.adminState ≠ "enabled" ∧ ifCfg.adminState ≠ "disabled" then
    throw ("device " ++ devName ++ ", interface " ++ ifName ++ ": admin_state must be 'enabled' or 'disabled'")
  if ifCfg.membersRequired ≠ [] then
    match ifCfg.memberPolicy with
    | none =>
        throw ("device " ++ devName ++ ", interface " ++ ifName ++ ": has members but no member_policy")
    | some pol => do
        if pol.mode ≠ "all_active" ∧ pol.mode ≠ "min_active" ∧ pol.mode ≠ "per_stack_minimum" then
          throw ("device " ++ devName ++ ", interface " ++ ifName ++
            ": member_policy.mode must be 'all_active', 'min_active', or 'per_stack_minimum'")
        if pol.mode = "min_active" ∧ pol.minimum ≤ 0 then
          throw ("device " ++ devName ++ ", interface " ++ ifName ++
            ": member_policy.minimum must be > 0 for min_active mode")

def validateDevice (cfg : Config) (name : String) (device : DeviceConfig) :
    Except String Unit := do
  if device.address = "" then
    throw ("device " ++ name ++ ": address is required")
  if device.credentialsRef ≠ "" then
    if (lookupS cfg.credentials device.credentialsRef).isNone then
      throw ("device " ++ name ++ ": references unknown credential " ++ device.credentialsRef)
  device.interfaces.forM (fun p => validateInterface name p.1 p.2)

def ValidateConfig (cfg : Config) : Except String Unit := do
  if cfg.desiredState.devices.length = 0 then
    throw "no devices configured"
  cfg.desiredState.devices.forM (fun p => validateDevice cfg p.1 p.2)
  cfg.alerts.channels.forM (fun p => do
    if p.2.ctype ≠ "apprise" then
      throw ("channel " ++ p.1 ++ ": only 'apprise' type is supported")
    if p.2.urlEnv = "" then
      throw ("channel " ++ p.1 ++ ": url_env is required"))
  cfg.alerts.alertRules.forM (fun p =>
    p.2.channels.forM (fun chName =>
      if (lookupS cfg.alerts.channels chName).isNone then
        throw ("alert rule " ++ p.1 ++ ": references unknown channel " ++ chName)
      else pure ()))

/-! gNMI notification model (the fields of `gnmi.Notification` consumed by
the evaluator).  `TypedValue` keeps only the distinction the evaluator
makes: a string value versus anything else (`GetStringVal` yields `""`
for non-string variants). -/

structure PathElem where
  name : String
  key : List (String × String)
deriving DecidableEq, Repr

structure GnmiPath where
  elems : List PathElem
deriving DecidableEq, Repr

inductive TypedValue where
  | stringVal (s : String)
  | otherVal (rendered : String)
deriving DecidableEq, Repr

def getStringVal : Option TypedValue → String
  | some (.stringVal s) => s
  | _ => ""

structure GnmiUpdate where
  path : GnmiPath
  val : Option TypedValue
deriving DecidableEq, Repr

structure Notification where
  timestamp : Int
  pfx : Option GnmiPath
  updates : List GnmiUpdate
deriving DecidableEq, Repr

/-! Evaluator (src/unnamed/part_004, package evaluator). -/

/-- interfaceState; `Members` is declared in Go but never written or read,
so it is omitted. -/
structure InterfaceState where
  device : String
  iface : String
  operStatus : String
  adminStatus : String
  updatedAt : Int
deriving DecidableEq, Repr

/-- Go zero value of `interfaceState`, produced by indexing a missing map
key. -/
def zeroInterfaceState : InterfaceState := ⟨"", "", "", "", 0⟩

def alertTypeInterfaceMismatch : String := "interface_state_mismatch"
def alertTypeInterfaceAdminDown : String := "interface_admin_down"
def alertTypeChannelDown : String := "port_channel_down"
def alertTypeMemberDown : String := "port_channel_member_down"

def supportedOperStates : List String := ["up", "down"]
def supportedAdminStates : List String := ["enabled", "disabled"]

/-- strings.ToLower, implemented on the character list (String.toLower
does not evaluate inside the kernel). -/
def toLowerStr (s : String) : String :=
  ⟨s.data.map Char.toLower⟩

/-- strings.TrimSpace, implemented on the character list. -/
def trimStr (s : String) : String :=
  ⟨((s.data.dropWhile Char.isWhitespace).reverse.dropWhile Char.isWhitespace).reverse⟩

/-- normalizeState (part_004 lines 374-376):
`strings.ToLower(strings.TrimSpace(value))`. -/
def normalizeState (value : String) : String :=
  toLowerStr (trimStr value)

structure StateChange where
  device : String
  iface : String
  alertType : String
  severity : String
  message : String
  relatedState : List (String × String)
deriving DecidableEq, Repr

def severityForAlert (ifaceCfg : InterfaceConfig) (alertName fallback : String) : String :=
  if ifaceCfg.alerts.stateMismatch ≠ "" ∧ alertName = "state_mismatch" then
    ifaceCfg.alerts.stateMismatch
  else if ifaceCfg.alerts.memberDown ≠ "" ∧ alertName = "member_down" then
    ifaceCfg.alerts.memberDown
  else if ifaceCfg.alerts.channelDown ≠ "" ∧ alertName = "channel_down" then
    ifaceCfg.alerts.channelDown
  else if ifaceCfg.alerts.adminDown ≠ "" ∧ alertName = "admin_down" then
    ifaceCfg.alerts.adminDown
  else fallback

/-- parseInterfacePath (part_004 lines 168-202).  The two redundant length
checks of the Go code collapse into the initial `length < 4` test. -/
def parseInterfacePath (path : GnmiPath) : Except String (String × String) :=
  match path.elems with
  | e0 :: e1 :: e2 :: e3 :: _ =>
    if e0.name ≠ "interfaces" ∨ e1.name ≠ "interface" then
      .error "not an interface path"
    else
      let ifaceName := (lookupS e1.key "name").getD ""
      if ifaceName = "" then .error "interface name not found in path"
      else if e2.name ≠ "state" then .error "not in state subtree"
      else
        let stateType := e3.name
        if stateType ≠ "oper-status" ∧ stateType ≠ "admin-status" then
          .error ("unknown state type: " ++ stateType)
        else .ok (ifaceName, stateType)
  | _ => .error "path too short"

/-- evaluateAdminChange (part_004 lines 205-231). -/
def evaluateAdminChange (deviceName ifaceName : String) (ifCfg : InterfaceConfig)
    (prevState ifaceState : InterfaceState) : Option StateChange :=
  if ifCfg.adminState = "" then none
  else
    let desiredAdmin := normalizeState ifCfg.adminState
    if desiredAdmin ∉ supportedAdminStates then none
    else if prevState.adminStatus = ifaceState.adminStatus then none
    else if ifaceState.adminStatus = "" ∨ ifaceState.adminStatus = desiredAdmin then none
    else
      some { device := deviceName
             iface := ifaceName
             alertType := alertTypeInterfaceAdminDown
             severity := severityForAlert ifCfg "admin_down" "warning"
             message := "interface " ++ ifaceName ++ " admin state " ++ ifaceState.adminStatus
             relatedState := [("expected_admin", desiredAdmin),
                              ("actual_admin", ifaceState.adminStatus)] }

/-- evaluateOperChange (part_004 lines 234-273). -/
def evaluateOperChange (deviceName ifaceName : String) (ifCfg : InterfaceConfig)
    (ifaceState : InterfaceState) : Option StateChange :=
  if ifCfg.desiredState = "" then none
  else
    let desired := normalizeState ifCfg.desiredState
    if desired ∉ supportedOperStates then none
    else if ifCfg.adminState ≠ "" ∧
            normalizeState ifCfg.adminState ∈ supportedAdminStates ∧
            ifaceState.adminStatus ≠ "" ∧
            ifaceState.adminStatus ≠ normalizeState ifCfg.adminState then
      none
    else if ifaceState.operStatus = "" then none
    else if ifaceState.operStatus ≠ desired then
      some { device := deviceName
             iface := ifaceName
             alertType := alertTypeInterfaceMismatch
             severity := severityForAlert ifCfg "state_mismatch" "critical"
             message := "interface " ++ ifaceName ++ " expected " ++ desired ++
               " got " ++ ifaceState.operStatus
             relatedState := [("expected_state", desired),
                              ("actual_state", ifaceState.operStatus)] }
    else none

/-- evaluateChannelMembers (part_004 lines 294-354).  The Go parameter
`ifaceState` is unused in the body and is omitted; member observations are
read from the shared cache. -/
def evaluateChannelMembers (cache : List (String × InterfaceState))
    (deviceName channelName : String) (ifaceCfg : InterfaceConfig) : List StateChange :=
  if ifaceCfg.membersRequired = [] then []
  else
    let mode := match ifaceCfg.memberPolicy with
      | none => "all_active"
      | some pol => if pol.mode ≠ "" then pol.mode else "all_active"
    let minimum : Int := match ifaceCfg.memberPolicy with
      | none => (ifaceCfg.membersRequired.length : Int)
      | some pol =>
          if mode = "min_active" ∧ pol.minimum > 0 then pol.minimum
          else (ifaceCfg.membersRequired.length : Int)
    let memberOper := fun (member : String) =>
      ((lookupS cache (deviceName ++ ":" ++ member)).getD zeroInterfaceState).operStatus
    let downMembers := ifaceCfg.membersRequired.filter
      (fun member => normalizeState (memberOper member) ≠ "up")
    let active : Int := ((ifaceCfg.membersRequired.filter
      (fun member => normalizeState (memberOper member) = "up")).length : Int)
    if mode = "all_active" ∧ downMembers ≠ [] then
      [{ device := deviceName
         iface := channelName
         alertType := alertTypeMemberDown
         severity := severityForAlert ifaceCfg "member_down" "critical"
         message := "port-channel " ++ channelName ++ " members down: " ++
           String.intercalate ", " downMembers
         relatedState := [("down_members", String.intercalate "," downMembers)] }]
    else if mode = "min_active" ∧ active < minimum then
      [{ device := deviceName
         iface := channelName
         alertType := alertTypeChannelDown
         severity := severityForAlert ifaceCfg "channel_down" "critical"
         message := "port-channel " ++ channelName ++ " active members " ++
           toString active ++ " below minimum " ++ toString minimum
         relatedState := [("active_members", toString active),
                          ("minimum", toString minimum)] }]
    else []

/-- channelNamesForMember (part_004 lines 357-371); iterates the device's
interfaces in list order (Go map order is arbitrary). -/
def channelNamesForMember (deviceCfg : DeviceConfig) (member : String) : List String :=
  (deviceCfg.interfaces.filter
    (fun p => p.2.membersRequired ≠ [] ∧ member ∈ p.2.membersRequired)).map (fun p => p.1)

/-- evaluatePortChannel (part_004 lines 276-291). -/
def evaluatePortChannel (cache : List (String × InterfaceState))
    (deviceName ifaceName : String) (deviceCfg : DeviceConfig) : List StateChange :=
  let channelNames := channelNamesForMember deviceCfg ifaceName
  let channelNames := match lookupS deviceCfg.interfaces ifaceName with
    | some ifaceCfg =>
        if ifaceCfg.membersRequired ≠ [] then channelNames ++ [ifaceName] else channelNames
    | none => channelNames
  channelNames.foldl (fun acc channelName =>
    acc ++ (match lookupS deviceCfg.interfaces channelName with
            | none => []
            | some channelCfg =>
                evaluateChannelMembers cache deviceName channelName channelCfg)) []

/-- Loop body of EvaluateNotification (part_004 lines 73-162), processing
one update of the notification.  The state threaded through the loop is
the observation cache together with the accumulated changes; `now` stands
for `time.Now()`.  On a parse error the Go code falls back to the
notification prefix but then re-parses the same path, so the error recurs
and the update is skipped either way. -/
def evalUpdateStep (cfg : Config) (deviceName : String) (now : Int)
    (acc : List (String × InterfaceState) × List StateChange)
    (update : GnmiUpdate) : List (String × InterfaceState) × List StateChange :=
    let cache := acc.1
    let changes := acc.2
    match parseInterfacePath update.path with
    | .error _ => (cache, changes)
    | .ok (ifaceName, stateType) =>
      match lookupS cfg.desiredState.devices deviceName with
      | none => (cache, changes)
      | some deviceCfg =>
        match lookupS deviceCfg.interfaces ifaceName with
        | none => (cache, changes)
        | some ifCfg =>
          let stateValue := getStringVal update.val
          let cacheKey := deviceName ++ ":" ++ ifaceName
          let state0 := (lookupS cache cacheKey).getD zeroInterfaceState
          let state1 := { state0 with device := deviceName, iface := ifaceName, updatedAt := now }
          let state :=
            if stateType = "oper-status" then
              { state1 with operStatus := normalizeState stateValue }
            else if stateType = "admin-status" then
              { state1 with adminStatus := normalizeState stateValue }
            else state1
          let cache' := insertS cache cacheKey state
          -- `prevState := state` in the source is executed after the cache
          -- write, so the "previous" snapshot equals the updated state.
          let prevState := state
          let changes :=
            if stateType = "admin-status" then
              match evaluateAdminChange deviceName ifaceName ifCfg prevState state with
              | some c => changes ++ [c]
              | none => changes
            else changes
          let changes :=
            if stateType = "oper-status" then
              match evaluateOperChange deviceName ifaceName ifCfg state with
              | some c => changes ++ [c]
              | none => changes
            else changes
          let changes :=
            if stateType = "oper-status" then
              changes ++ evaluatePortChannel cache' deviceName ifaceName deviceCfg
            else changes
          (cache', changes)

def EvaluateNotification (cfg : Config) (cache : List (String × InterfaceState))
    (deviceName : String) (notification : Notification) (now : Int) :
    List (String × InterfaceState) × List StateChange :=
  notification.updates.foldl (evalUpdateStep cfg deviceName now) (cache, [])

/-! Alert engine (src/unnamed/part_005, package alerter), with the flap
detector (internal/alerter/flap.go) and the escalation manager
(src/unnamed/part_006).  `types.Alert`: the engine reads a `Suppressed`
field that the stale `types.go` in the repo lacks; it is included here
because the engine's code uses it (and is never set to true anywhere). -/

structure Alert where
  id : String
  device : String
  entity : String
  alertType : String
  severity : String
  state : String
  firedAt : Int
  resolvedAt : Option Int
  message : String
  relatedState : List (String × String)
  suppressed : Bool
deriving DecidableEq, Repr

structure AlertEvent where
  device : String
  entity : String
  alertType : String
  severity : String
  firing : Bool
  message : String
  related : List (String × String)
deriving DecidableEq, Repr

/-- getChannelsForSeverity (part_005 lines 343-355). -/
def getChannelsForSeverity (cfg : Config) (severity : String) : List String :=
  match lookupS cfg.alerts.alertRules severity with
  | some rule => rule.channels
  | none =>
    match lookupS cfg.alerts.alertRules "default" with
    | some rule => rule.channels
    | none => []

/-- getChannelURL (part_005 lines 357-360): the stub returns the empty
string unconditionally ("Will be handled by notifier"). -/
def getChannelURL (_envVar : String) : String := ""

/-- Escalation delivery closure installed by NewEngine (part_005 lines
100-117): prefixes the message, then for each channel looks up its config
and its URL via `getChannelURL`, skipping the channel when the URL is
empty; a non-skipped channel would receive the escalated alert.  The
result collects the (channel, alert) deliveries actually handed to the
notifier. -/
def engineEscalate (cfg : Config) (alert : Alert) (channels : List String) :
    List (String × Alert) :=
  let alert := { alert with message := "[ESCALATED] " ++ alert.message }
  channels.foldl (fun delivered chName =>
    match lookupS cfg.alerts.channels chName with
    | none => delivered
    | some ch =>
      let url := getChannelURL ch.urlEnv
      if url = "" then delivered
      else delivered ++ [(chName, alert)]) []

/-! FlapDetector (internal/alerter/flap.go).  History keys are
`device|entity`; timestamps are integer seconds.  `time.After(cutoff)` is
`(· > now - window)` on integers. -/

structure FlapState where
  threshold : Int
  window : Int
  history : List (String × List Int)
  flapping : List (String × Bool)
deriving DecidableEq, Repr

/-- RecordChange (flap.go lines 34-63): returns (flapping, justStarted)
and the updated detector state. -/
def RecordChange (f : FlapState) (key : String) (now : Int) :
    Bool × Bool × FlapState :=
  let cutoff := now - f.window
  let timestamps := (lookupS f.history key).getD []
  let pruned := timestamps.filter (fun ts => ts > cutoff) ++ [now]
  let f := { f with history := insertS f.history key pruned }
  if (pruned.length : Int) ≥ f.threshold then
    let wasFlapping := (lookupS f.flapping key).getD false
    let f := { f with flapping := insertS f.flapping key true }
    if ¬wasFlapping then (true, true, f) else (true, false, f)
  else (false, false, f)

/-- CheckStable (flap.go lines 74-98). -/
def CheckStable (f : FlapState) (key : String) (now : Int) : Bool × FlapState :=
  if ¬((lookupS f.flapping key).getD false) then (false, f)
  else
    let cutoff := now - f.window
    let timestamps := (lookupS f.history key).getD []
    let recent := (timestamps.filter (fun ts => ts > cutoff)).length
    if (recent : Int) < f.threshold then
      (true, { f with flapping := eraseS f.flapping key })
    else (false, f)

/-- Cleanup (flap.go lines 101-120): prunes each history entry; an entry
whose pruned history is empty is deleted together with its flapping flag. -/
def Cleanup (f : FlapState) (now : Int) : FlapState :=
  let cutoff := now - f.window
  f.history.foldl (fun f entry =>
    let pruned := entry.2.filter (fun ts => ts > cutoff)
    if pruned = [] then
      { f with history := eraseS f.history entry.1,
               flapping := eraseS f.flapping entry.1 }
    else
      { f with history := insertS f.history entry.1 pruned }) f

/-! EscalationManager (src/unnamed/part_006).  A timer's `context.CancelFunc`
is modelled as a token; cancelled and fired tokens are tracked so that
"pending" (goroutine alive and not cancelled) is expressible.  `rules` maps
channel name to its delay. -/

structure EscState where
  rules : List (String × Int)
  timers : List (String × Nat)
  nextToken : Nat
  cancelled : List Nat
  fired : List Nat
deriving DecidableEq, Repr

def escKey (device entity alertType : String) : String :=
  device ++ "|" ++ entity ++ "|" ++ alertType

/-- StartEscalation (part_006 lines 42-96) up to the point the timer
goroutine is spawned: computes the escalation channels and max delay,
cancels any existing timer for the key, and installs a fresh one.  Returns
the installed (key, delay, channels) when a timer was started. -/
def StartEscalation (m : EscState) (alert : Alert) (channels : List String) :
    EscState × Option (String × Int × List String) :=
  let escalationChannels := channels.filter (fun ch =>
    match lookupS m.rules ch with
    | none => false
    | some delay => delay > 0)
  let maxDelay := escalationChannels.foldl (fun acc ch =>
    max acc ((lookupS m.rules ch).getD 0)) 0
  if escalationChannels = [] then (m, none)
  else
    let key := escKey alert.device alert.entity alert.alertType
    let m := match lookupS m.timers key with
      | some tok => { m with cancelled := tok :: m.cancelled }
      | none => m
    let m := { m with timers := insertS m.timers key m.nextToken,
                      nextToken := m.nextToken + 1 }
    (m, some (key, maxDelay, escalationChannels))

/-- CancelEscalation (part_006 lines 99-109). -/
def CancelEscalation (m : EscState) (device entity alertType : String) : EscState :=
  let key := escKey device entity alertType
  match lookupS m.timers key with
  | some tok =>
      { m with cancelled := tok :: m.cancelled, timers := eraseS m.timers key }
  | none => m

/-- Stop (part_006 lines 112-119). -/
def EscStop (m : EscState) : EscState :=
  { m with cancelled := (m.timers.map (fun p => p.2)) ++ m.cancelled, timers := [] }

/-- The timer goroutine body after the delay elapses (part_006 lines
79-95): if the timer's context was cancelled it exits; otherwise it invokes
`onEscalate` and deletes its key from the timer map. -/
def EscFire (m : EscState) (key : String) (tok : Nat) : EscState :=
  if tok ∈ m.cancelled then m
  else { m with fired := tok :: m.fired, timers := eraseS m.timers key }

/-! Engine state and event processing (part_005).  The bounded event
queue is modelled as immediate processing (no overflow), matching runs in
which the queue never fills.  Deliveries record every `notify` call: the
alert copy handed to the sink together with the channels the notifier is
asked to use. -/

structure EngineState where
  dedupWindow : Int
  flapEnabled : Bool
  flap : FlapState
  escEnabled : Bool
  esc : EscState
  activeAlerts : List (String × Alert)
  lastFired : List (String × Int)
  deliveries : List (Alert × List String)
deriving DecidableEq, Repr

/-- NewEngine (part_005 lines 50-122): flap detector defaults
(threshold 3, window 5 min) and escalation rules built from channels with
a positive escalation delay. -/
def NewEngine (cfg : Config) : EngineState :=
  let fd := cfg.alerts.alertBehavior.flapDetection
  let threshold := if fd.threshold > 0 then fd.threshold else 3
  let window := if fd.window > 0 then fd.window else 300
  let escRules := (cfg.alerts.channels.filter (fun p => p.2.escalationDelay > 0)).map
    (fun p => (p.1, p.2.escalationDelay))
  { dedupWindow := cfg.alerts.alertBehavior.deduplicationWindow
    flapEnabled := fd.enabled
    flap := { threshold := threshold, window := window, history := [], flapping := [] }
    escEnabled := escRules ≠ []
    esc := { rules := escRules, timers := [], nextToken := 0, cancelled := [], fired := [] }
    activeAlerts := []
    lastFired := []
    deliveries := [] }

def engineKey (ev : AlertEvent) : String :=
  ev.device ++ "|" ++ ev.entity ++ "|" ++ ev.alertType

def entityKeyOf (ev : AlertEvent) : String :=
  ev.device ++ "|" ++ ev.entity

/-- The synthetic flapping_detected alert built by process on the
transition into flapping (part_005 lines 189-198). -/
def mkFlapAlert (ev : AlertEvent) (now : Int) : Alert :=
  { id := "flap-" ++ entityKeyOf ev ++ "-" ++ toString now
    device := ev.device
    entity := ev.entity
    alertType := "flapping_detected"
    severity := "warning"
    state := "firing"
    firedAt := now
    resolvedAt := none
    message := "Flapping detected on " ++ ev.device ++ " " ++ ev.entity ++
      ": suppressing individual alerts"
    relatedState := []
    suppressed := false }

/-- The alert built by the firing path of process (part_005 lines
221-232). -/
def mkFiringAlert (ev : AlertEvent) (now : Int) : Alert :=
  { id := engineKey ev ++ "-" ++ toString now
    device := ev.device
    entity := ev.entity
    alertType := ev.alertType
    severity := ev.severity
    state := "firing"
    firedAt := now
    resolvedAt := none
    message := ev.message
    relatedState := ev.related
    suppressed := false }

/-- process (part_005 lines 175-282) for a firing or resolving event at
time `now`. -/
def engineProcess (cfg : Config) (s : EngineState) (ev : AlertEvent) (now : Int) :
    EngineState :=
  let key := engineKey ev
  let entityKey := entityKeyOf ev
  if ev.firing then
    -- flap recording runs first when the detector is enabled
    let recorded :=
      if s.flapEnabled then
        let (flapping, justStarted, flap') := RecordChange s.flap entityKey now
        (flapping, justStarted, { s with flap := flap' })
      else (false, false, s)
    let flapping := recorded.1
    let justStarted := recorded.2.1
    let s := recorded.2.2
    if flapping then
      -- suppression: the individual alert is dropped; on the transition
      -- into flapping a synthetic flapping_detected alert is emitted
      if justStarted then
        let flapAlert := mkFlapAlert ev now
        let s := { s with activeAlerts := insertS s.activeAlerts ("flap|" ++ entityKey) flapAlert }
        { s with deliveries := s.deliveries ++
          [(flapAlert, getChannelsForSeverity cfg flapAlert.severity)] }
      else s
    else
      let dedupWindow := if s.dedupWindow = 0 then 300 else s.dedupWindow
      let deduped : Bool := match lookupS s.lastFired key with
        | some last => decide (now - last < dedupWindow)
        | none => false
      if deduped then s
      else
        let alert := mkFiringAlert ev now
        let s := { s with activeAlerts := insertS s.activeAlerts key alert,
                          lastFired := insertS s.lastFired key now }
        let s := { s with deliveries := s.deliveries ++
          [(alert, getChannelsForSeverity cfg ev.severity)] }
        if s.escEnabled then
          let (esc', _) := StartEscalation s.esc alert (getChannelsForSeverity cfg ev.severity)
          { s with esc := esc' }
        else s
  else
    match lookupS s.activeAlerts key with
    | none => s
    | some existing =>
      let resolved := { existing with state := "resolved", resolvedAt := some now,
                                      message := ev.message }
      let s :=
        if ¬resolved.suppressed then
          { s with deliveries := s.deliveries ++
            [(resolved, getChannelsForSeverity cfg resolved.severity)] }
        else s
      let s :=
        if s.escEnabled then
          { s with esc := CancelEscalation s.esc ev.device ev.entity ev.alertType }
        else s
      { s with activeAlerts := eraseS s.activeAlerts key }

/-- checkFlapRecovery (part_005 lines 285-306): scans the active table for
flapping_detected alerts, resolves those whose entity has stabilized, and
removes them.  The fold walks a snapshot of the entries while threading
the mutating state, matching Go's range-with-delete over the map. -/
def flapRecoveryStep (cfg : Config) (now : Int) (s : EngineState)
    (entry : String × Alert) : EngineState :=
  let key := entry.1
  let alert := entry.2
  if alert.alertType ≠ "flapping_detected" then s
  else
    let entityKey := alert.device ++ "|" ++ alert.entity
    let (stable, flap') := CheckStable s.flap entityKey now
    let s := { s with flap := flap' }
    if stable then
      let resolved := { alert with
        state := "resolved"
        resolvedAt := some now
        message := "Flapping stopped on " ++ alert.device ++ " " ++ alert.entity }
      let s := { s with deliveries := s.deliveries ++
        [(resolved, getChannelsForSeverity cfg resolved.severity)] }
      { s with activeAlerts := eraseS s.activeAlerts key }
    else s

def checkFlapRecovery (cfg : Config) (s : EngineState) (now : Int) : EngineState :=
  s.activeAlerts.foldl (flapRecoveryStep cfg now) s

/-- Periodic 30 s sweep body started by Run (part_005 lines 130-141):
Cleanup, then checkFlapRecovery.  The ticker exists only when the flap
detector is enabled. -/
def engineSweep (cfg : Config) (s : EngineState) (now : Int) : EngineState :=
  if s.flapEnabled then
    let s := { s with flap := Cleanup s.flap now }
    checkFlapRecovery cfg s now
  else s

/-- ProcessStateChange (part_005 lines 156-172): wraps a StateChange into
an AlertEvent with `Firing := true` and enqueues it; the queue is modelled
as immediate processing. -/
def stateChangeEvent (change : StateChange) : AlertEvent :=
  { device := change.device
    entity := change.iface
    alertType := change.alertType
    severity := change.severity
    firing := true
    message := change.message
    related := change.relatedState }

def ProcessStateChange (cfg : Config) (s : EngineState) (change : StateChange)
    (now : Int) : EngineState :=
  engineProcess cfg s (stateChangeEvent change) now

/-- Engine operations: an event arriving on the queue, a flap sweep tick,
or an escalation timer expiring.  A fired timer only touches the timer
map (its deliveries go through `engineEscalate`, which hands nothing to
the notifier); the alert table is untouched. -/
inductive EngineOp where
  | event (ev : AlertEvent) (now : Int)
  | sweep (now : Int)
  | escFire (key : String) (tok : Nat)
deriving DecidableEq, Repr

def engineStep (cfg : Config) (s : EngineState) : EngineOp → EngineState
  | .event ev now => engineProcess cfg s ev now
  | .sweep now => engineSweep cfg s now
  | .escFire key tok =>
      if s.escEnabled then { s with esc := EscFire s.esc key tok } else s

def runEngine (cfg : Config) (ops : List EngineOp) : EngineState :=
  ops.foldl (engineStep cfg) (NewEngine cfg)

/-! Pipeline driver: the update task of main.go feeds each notification to
the evaluator and each resulting StateChange to the alert engine. -/

structure PipelineState where
  cache : List (String × InterfaceState)
  engine : EngineState
deriving DecidableEq, Repr

inductive PipeOp where
  | notif (deviceName : String) (n : Notification) (now : Int)
  | sweep (now : Int)
deriving DecidableEq, Repr

def pipeStep (cfg : Config) (st : PipelineState) : PipeOp → PipelineState
  | .notif deviceName n now =>
    let result := EvaluateNotification cfg st.cache deviceName n now
    let engine' := result.2.foldl (fun es ch => ProcessStateChange cfg es ch now) st.engine
    { cache := result.1, engine := engine' }
  | .sweep now => { st with engine := engineSweep cfg st.engine now }

def runPipeline (cfg : Config) (ops : List PipeOp) : PipelineState :=
  ops.foldl (pipeStep cfg) { cache := [], engine := NewEngine cfg }

/-! Collector connection (internal/collector/gnmi.go). -/

/-- Connect (gnmi.go lines 116-159): loops over connectOnce attempts.  An
attempt outcome is `true` (subscription established) or `false` (dial,
auth or subscribe failure); exhausting the outcome list stands for the
collector's context being cancelled during the backoff wait or before an
attempt.  Connect returns nil on the first successful attempt and an
error only on cancellation. -/
def connectLoop : List Bool → Except String Unit
  | [] => .error "context canceled"
  | true :: _ => .ok ()
  | false :: rest => connectLoop rest

/-- Number of connectOnce attempts Connect performs on the given outcome
sequence. -/
def connectAttempts : List Bool → Nat
  | [] => 0
  | true :: _ => 1
  | false :: rest => connectAttempts rest + 1

/-- backoffDuration (gnmi.go lines 318-328): exponential from `bmin`
(2 s) doubling per attempt, capped at `bmax` (120 s), plus uniform jitter
drawn from [0, bmin); the jitter sample is a parameter here. -/
def backoffDuration (bmin bmax : Int) (attempt : Nat) (jitter : Int) : Int :=
  if attempt = 0 then bmin
  else
    let backoff := bmin * 2 ^ attempt
    (if backoff > bmax then bmax else backoff) + jitter

/-! Configuration reload (cmd/netspec/main.go lines 270-321). -/

structure CollectorHandle where
  address : String
  port : Int
  generation : Nat
deriving DecidableEq, Repr

structure SystemState where
  evalCache : List (String × InterfaceState)
  engine : EngineState
  collectors : List (String × CollectorHandle)
  closedGens : List Nat
  nextGen : Nat
deriving DecidableEq, Repr

/-- startCollector closure (main.go lines 99-241): closes any existing
collector for the device (recorded in `closedGens`) and installs a fresh
one dialing the configured address and global port. -/
def startCollector (sys : SystemState) (deviceName : String)
    (deviceCfg : DeviceConfig) (cfg : Config) : SystemState :=
  let sys := match lookupS sys.collectors deviceName with
    | some existing => { sys with closedGens := existing.generation :: sys.closedGens }
    | none => sys
  let handle : CollectorHandle :=
    { address := deviceCfg.address
      port := cfg.desiredState.global.gnmiPort
      generation := sys.nextGen }
  { sys with collectors := insertS sys.collectors deviceName handle,
             nextGen := sys.nextGen + 1 }

/-- SetReloadFunc closure (main.go lines 270-321).  `loadResult` stands
for `config.LoadConfigDir(configDir)`.  On error nothing happens.  On
success the closure spawns another engine loop (no state change at reload
time), closes and forgets collectors of removed devices, then
closes-and-recreates a collector for every configured device.  The
evaluator cache and the engine state are never referenced. -/
def reloadFunc (sys : SystemState) (loadResult : Except String Config) :
    SystemState × Except String Config :=
  match loadResult with
  | .error e => (sys, .error e)
  | .ok newCfg =>
    let sys := sys.collectors.foldl (fun acc entry =>
      if (lookupS newCfg.desiredState.devices entry.1).isNone then
        { acc with collectors := eraseS acc.collectors entry.1,
                   closedGens := entry.2.generation :: acc.closedGens }
      else acc) sys
    let sys := newCfg.desiredState.devices.foldl (fun acc entry =>
      startCollector acc entry.1 entry.2 newCfg) sys
    (sys, .ok newCfg)

/-! Concrete scenarios from the spec (section 8), encoded as pipeline
inputs. -/

def operPath (iface : String) : GnmiPath :=
  ⟨[⟨"interfaces", []⟩, ⟨"interface", [("name", iface)]⟩, ⟨"state", []⟩,
    ⟨"oper-status", []⟩]⟩

def adminPath (iface : String) : GnmiPath :=
  ⟨[⟨"interfaces", []⟩, ⟨"interface", [("name", iface)]⟩, ⟨"state", []⟩,
    ⟨"admin-status", []⟩]⟩

def statusNotif (path : GnmiPath) (value : String) (ts : Int) : Notification :=
  ⟨ts, none, [⟨path, some (.stringVal value)⟩]⟩

def plainIntfUp : InterfaceConfig :=
  { desiredState := "up", adminState := "", membersRequired := [],
    memberPolicy := none, alerts := noSeverityOverrides }

def flapOff : FlapDetectionConfig := ⟨false, 0, 0⟩

def mkConfig (devs : List (String × DeviceConfig)) (fd : FlapDetectionConfig) :
    Config :=
  { desiredState := ⟨⟨"", 9339, 10⟩, devs⟩
    alerts := ⟨[], [], ⟨300, fd⟩⟩
    credentials := [] }

/-- Scenario B intent: d1/Gi1/0/2 desired_state=up, admin_state=enabled. -/
def scenarioBConfig : Config :=
  mkConfig [("d1", ⟨"10.0.0.1", "",
    [("Gi1/0/2", { desiredState := "up", adminState := "enabled",
                   membersRequired := [], memberPolicy := none,
                   alerts := noSeverityOverrides })]⟩)] flapOff

def scenarioBOps : List PipeOp :=
  [.notif "d1" (statusNotif (adminPath "Gi1/0/2") "DOWN" 0) 0,
   .notif "d1" (statusNotif (operPath "Gi1/0/2") "DOWN" 5) 5]

/-- Scenario A/C intent: d1/Gi1/0/1 desired_state=up. -/
def scenarioCConfig : Config :=
  mkConfig [("d1", ⟨"10.0.0.1", "", [("Gi1/0/1", plainIntfUp)]⟩)] flapOff

def scenarioCOps : List PipeOp :=
  [.notif "d1" (statusNotif (operPath "Gi1/0/1") "UP" 0) 0,
   .notif "d1" (statusNotif (operPath "Gi1/0/1") "DOWN" 3) 3,
   .notif "d1" (statusNotif (operPath "Gi1/0/1") "UP" 6) 6,
   .notif "d1" (statusNotif (operPath "Gi1/0/1") "DOWN" 9) 9]

/-- Scenario D intent: as A with flap detection threshold 3, window 60 s. -/
def scenarioDConfig : Config :=
  mkConfig [("d1", ⟨"10.0.0.1", "", [("Gi1/0/1", plainIntfUp)]⟩)] ⟨true, 3, 60⟩

/-- Scenario D feed: DOWN, UP, DOWN, UP, DOWN within 30 s (at 1..30),
followed by silence; the 30 s flap sweep ticks at 30, 60, 90, 120. -/
def scenarioDOps : List PipeOp :=
  [.notif "d1" (statusNotif (operPath "Gi1/0/1") "DOWN" 1) 1,
   .notif "d1" (statusNotif (operPath "Gi1/0/1") "UP" 8) 8,
   .notif "d1" (statusNotif (operPath "Gi1/0/1") "DOWN" 15) 15,
   .notif "d1" (statusNotif (operPath "Gi1/0/1") "UP" 22) 22,
   .notif "d1" (statusNotif (operPath "Gi1/0/1") "DOWN" 30) 30,
   .sweep 30, .sweep 60, .sweep 90, .sweep 120]

/-- Scenario E intent: d1/Po1 desired_state=up with required members
Gi1/0/49 and Gi1/0/50 under all_active; the members are themselves
declared (the spec's own validation invariant requires this, and the
evaluator skips updates for undeclared interfaces). -/
def scenarioEConfig : Config :=
  mkConfig [("d1", ⟨"10.0.0.1", "",
    [("Po1", { desiredState := "up", adminState := "",
               membersRequired := ["Gi1/0/49", "Gi1/0/50"],
               memberPolicy := some ⟨"all_active", 0, 0⟩,
               alerts := noSeverityOverrides }),
     ("Gi1/0/49", plainIntfUp),
     ("Gi1/0/50", plainIntfUp)]⟩)] flapOff

def scenarioENotif3 : Notification := statusNotif (operPath "Gi1/0/49") "DOWN" 5

def scenarioEOpsFirstTwo : List PipeOp :=
  [.notif "d1" (statusNotif (operPath "Gi1/0/49") "UP" 0) 0,
   .notif "d1" (statusNotif (operPath "Gi1/0/50") "UP" 2) 2]

def scenarioEOps : List PipeOp :=
  scenarioEOpsFirstTwo ++ [.notif "d1" scenarioENotif3 5]

/-- A configuration whose port-channel requires a member that is not
itself declared as an interface intent on the device. -/
def undeclaredMemberConfig : Config :=
  mkConfig [("d1", ⟨"10.0.0.1", "",
    [("Po1", { desiredState := "up", adminState := "",
               membersRequired := ["Gi1/0/49"],
               memberPolicy := some ⟨"all_active", 0, 0⟩,
               alerts := noSeverityOverrides })]⟩)] flapOff

/-! Claim theorems. -/

instance exceptDecEq {ε α : Type} [DecidableEq ε] [DecidableEq α] :
    DecidableEq (Except ε α) := fun x y =>
  match x, y with
  | .ok a, .ok b =>
      if h : a = b then .isTrue (by rw [h]) else .isFalse (by intro hc; cases hc; exact h rfl)
  | .error a, .error b =>
      if h : a = b then .isTrue (by rw [h]) else .isFalse (by intro hc; cases hc; exact h rfl)
  | .ok _, .error _ => .isFalse (by intro hc; cases hc)
  | .error _, .ok _ => .isFalse (by intro hc; cases hc)

/-- C1: the claim expects Scenario B (admin-status DOWN then oper-status
DOWN against desired_state=up, admin_state=enabled) to fire exactly one
interface_admin_down alert.  In the code, EvaluateNotification takes its
"previous" snapshot after writing the update into the cache, so
evaluateAdminChange always compares the new observation with itself and
returns nothing: the pipeline delivers no alert at all on Scenario B, and
evaluateAdminChange is constantly none on the equal-snapshot call shape
the evaluator uses. -/
theorem C1_admin_down_never_fires :
    (runPipeline scenarioBConfig scenarioBOps).engine.deliveries = [] ∧
    ∀ (dev ifc : String) (ifCfg : InterfaceConfig) (st : InterfaceState),
      evaluateAdminChange dev ifc ifCfg st st = none := by
  refine ⟨by decide, ?_⟩
  intro dev ifc ifCfg st
  simp [evaluateAdminChange]

/-- C2: the claim expects Scenario C (oper UP, DOWN, UP, DOWN within 10 s,
dedup window 5 min) to deliver one firing interface_state_mismatch and one
resolve.  The code delivers exactly the one firing alert and no resolve:
the evaluator emits nothing when the observed state matches the desired
state, and ProcessStateChange marks every event as firing, so no resolve
ever reaches the engine; the second DOWN is deduplicated. -/
theorem C2_scenarioC_one_firing_no_resolve :
    ((runPipeline scenarioCConfig scenarioCOps).engine.deliveries.map
      (fun d => (d.1.alertType, d.1.state))) =
      [(alertTypeInterfaceMismatch, "firing")] := by decide

/-- C3: the claim expects a fired escalation timer to deliver the alert,
flagged as escalated, to each channel that had a delay.  The engine's
escalation closure looks up each channel's URL through getChannelURL,
which unconditionally returns the empty string, and skips every channel
with an empty URL — so a fired timer delivers to no channel at all. -/
theorem C3_escalation_delivers_to_no_channel :
    ∀ (cfg : Config) (alert : Alert) (channels : List String),
      engineEscalate cfg alert channels = [] := by
  intro cfg alert channels
  unfold engineEscalate
  suffices h : ∀ (l : List String) (acc : List (String × Alert)),
      (l.foldl (fun delivered chName =>
        match lookupS cfg.alerts.channels chName with
        | none => delivered
        | some ch =>
          if getChannelURL ch.urlEnv = "" then delivered
          else delivered ++ [(chName, { alert with
            message := "[ESCALATED] " ++ alert.message })]) acc) = acc by
    exact h channels []
  intro l
  induction l with
  | nil => intro acc; rfl
  | cons hd tl ih =>
      intro acc
      simp only [List.foldl_cons]
      cases hlk : lookupS cfg.alerts.channels hd with
      | none => simpa using ih acc
      | some ch => simpa [getChannelURL] using ih acc

/-- C4: the claim expects the 30 s sweep to resolve flapping_detected once
the pruned history falls below the threshold, and Scenario D to deliver
one resolve after 60 s of silence.  With changes at 1, 15, 30 (all within
30 s) and sweeps at 30, 60, 90, 120, the history count seen by the sweeps
goes 3, 3, 0: when it empties, Cleanup deletes the flapping flag before
checkFlapRecovery runs, CheckStable then reports not-flapping, and the
flapping_detected alert is never resolved — it is still active after the
last sweep and no resolved delivery ever occurs. -/
theorem C4_flap_recovery_never_resolves :
    ((runPipeline scenarioDConfig scenarioDOps).engine.deliveries.map
      (fun d => (d.1.alertType, d.1.state))) =
      [(alertTypeInterfaceMismatch, "firing"), ("flapping_detected", "firing")] ∧
    (lookupS (runPipeline scenarioDConfig scenarioDOps).engine.activeAlerts
      "flap|d1|Gi1/0/1").isSome = true := by decide

/-- C5: the claim says ValidateConfig rejects configurations whose
port-channels require members that are not declared interface intents on
the device.  ValidateConfig has no such check: a config whose Po1 requires
Gi1/0/49 while Gi1/0/49 is not declared passes validation. -/
theorem C5_validate_accepts_undeclared_member :
    ValidateConfig undeclaredMemberConfig = Except.ok () ∧
    (lookupS undeclaredMemberConfig.desiredState.devices "d1").isSome = true ∧
    ((lookupS undeclaredMemberConfig.desiredState.devices "d1").bind
      (fun dev => lookupS dev.interfaces "Po1")).map
        (fun c => c.membersRequired) = some ["Gi1/0/49"] ∧
    ((lookupS undeclaredMemberConfig.desiredState.devices "d1").bind
      (fun dev => lookupS dev.interfaces "Gi1/0/49")) = none := by decide

/-- C6 counterexample: the claim says a failed connection attempt is
returned to the supervisor (Connect performs no internal retry).  On the
attempt-outcome sequence [failure, success], Connect returns ok after
consuming two attempts internally, instead of returning the first
failure. -/
theorem C6_counterexample_internal_retry :
    connectLoop [false, true] = Except.ok () ∧
    connectAttempts [false, true] = 2 := by decide

/-- C6 (amended): Connect loops internally over connectOnce attempts with
exponential backoff: it returns ok exactly when some attempt succeeds,
consuming every failure before the first success, and it returns an error
exactly when the collector's context is cancelled before any attempt
succeeds; the inter-attempt backoff is 2 s doubled per attempt, capped at
120 s, plus jitter.  Dial, auth, and subscribe failures are never handed
back to the supervisor. -/
theorem C6_connect_retries_until_success_or_cancel :
    ∀ (outcomes : List Bool),
      (connectLoop outcomes = Except.ok () ↔ true ∈ outcomes) ∧
      (connectLoop outcomes = Except.error "context canceled" ↔ true ∉ outcomes) ∧
      connectAttempts outcomes =
        (outcomes.takeWhile (fun b => !b)).length +
          (if true ∈ outcomes then 1 else 0) ∧
      ∀ (attempt : Nat) (jitter : Int),
        backoffDuration 2 120 (attempt + 1) jitter =
          min (2 * 2 ^ (attempt + 1)) 120 + jitter := by
  intro outcomes
  have hback : ∀ (attempt : Nat) (jitter : Int),
      backoffDuration 2 120 (attempt + 1) jitter =
        min (2 * 2 ^ (attempt + 1)) 120 + jitter := by
    intro attempt jitter
    have h1 : ¬(attempt + 1 = 0) := by omega
    simp only [backoffDuration, if_neg h1]
    rcases le_or_lt (2 * 2 ^ (attempt + 1) : Int) 120 with h | h
    · rw [if_neg (not_lt.mpr h), min_eq_left h]
    · rw [if_pos h, min_eq_right h.le]
  induction outcomes with
  | nil => exact ⟨by simp [connectLoop], by simp [connectLoop], by simp [connectAttempts], hback⟩
  | cons b rest ih =>
      cases b with
      | true =>
          refine ⟨by simp [connectLoop], ?_, by simp [connectAttempts, List.takeWhile], hback⟩
          simp [connectLoop]
      | false =>
          refine ⟨?_, ?_, ?_, hback⟩
          · simpa [connectLoop] using ih.1
          · simpa [connectLoop] using ih.2.1
          · have h := ih.2.2.1
            by_cases hm : true ∈ rest <;>
              simp [connectAttempts, List.takeWhile, hm] at h ⊢ <;> omega

/-- C7 counterexample: the claim expects Scenario E to fire exactly one
port_channel_member_down whose down_members contains Gi1/0/49.  In the
run, the only delivered port_channel_member_down alert carries
down_members "Gi1/0/50" (and "Gi1/0/50" is a different string than
"Gi1/0/49"): no delivered member-down alert mentions Gi1/0/49. -/
theorem C7_counterexample_down_members :
    (((runPipeline scenarioEConfig scenarioEOps).engine.deliveries.filter
        (fun d => d.1.alertType == alertTypeMemberDown)).map
      (fun d => lookupS d.1.relatedState "down_members")) = [some "Gi1/0/50"] ∧
    "Gi1/0/50" ≠ "Gi1/0/49" := by decide

/-- C7 (amended): in Scenario E the first member UP already fires the
port_channel_member_down alert for Po1 — the not-yet-observed member
Gi1/0/50 counts as not up — and the later member_down event for
Gi1/0/49's DOWN, which the evaluator does emit with down_members
"Gi1/0/49", is deduplicated by the engine (same identity within the
window).  The deliveries are therefore one firing member_down on Po1 with
down_members "Gi1/0/50" plus the interface_state_mismatch for Gi1/0/49. -/
theorem C7_member_down_fires_on_first_up :
    ((runPipeline scenarioEConfig scenarioEOps).engine.deliveries.map
      (fun d => (d.1.alertType, d.1.entity, d.1.state,
                 lookupS d.1.relatedState "down_members"))) =
      [(alertTypeMemberDown, "Po1", "firing", some "Gi1/0/50"),
       (alertTypeInterfaceMismatch, "Gi1/0/49", "firing", none)] ∧
    ((EvaluateNotification scenarioEConfig
        (runPipeline scenarioEConfig scenarioEOpsFirstTwo).cache
        "d1" scenarioENotif3 5).2.map
      (fun c => (c.alertType, c.iface, lookupS c.relatedState "down_members"))) =
      [(alertTypeInterfaceMismatch, "Gi1/0/49", none),
       (alertTypeMemberDown, "Po1", some "Gi1/0/49")] := by decide

/-! Association-map lemmas shared by the invariant proofs. -/

theorem mem_insertS {α : Type} {m : List (String × α)} {k : String} {v : α}
    {p : String × α} (hp : p ∈ insertS m k v) : p = (k, v) ∨ p ∈ m := by
  unfold insertS at hp
  rcases List.mem_cons.mp hp with h | h
  · exact Or.inl h
  · exact Or.inr (List.mem_of_mem_filter h)

theorem mem_eraseS {α : Type} {m : List (String × α)} {k : String}
    {p : String × α} (hp : p ∈ eraseS m k) : p ∈ m :=
  List.mem_of_mem_filter hp

theorem keysS_insertS_nodup {α : Type} (m : List (String × α)) (k : String) (v : α)
    (h : (keysS m).Nodup) : (keysS (insertS m k v)).Nodup := by
  unfold insertS keysS
  simp only [List.map_cons, List.nodup_cons]
  constructor
  · intro hmem
    obtain ⟨p, hp, hpk⟩ := List.mem_map.mp hmem
    have hne := List.of_mem_filter hp
    simp only [ne_eq, decide_not, Bool.not_eq_true', decide_eq_false_iff_not] at hne
    exact hne hpk
  · exact h.sublist ((List.filter_sublist m).map (fun p => p.1))

theorem keysS_eraseS_nodup {α : Type} (m : List (String × α)) (k : String)
    (h : (keysS m).Nodup) : (keysS (eraseS m k)).Nodup := by
  unfold eraseS keysS
  exact h.sublist ((List.filter_sublist m).map (fun p => p.1))

theorem lookupS_insertS_self {α : Type} (m : List (String × α)) (k : String) (v : α) :
    lookupS (insertS m k v) k = some v := by
  unfold insertS lookupS
  rw [if_pos rfl]

theorem lookupS_eraseS_self {α : Type} (m : List (String × α)) (k : String) :
    lookupS (eraseS m k) k = none := by
  induction m with
  | nil => rfl
  | cons hd tl ih =>
      cases hd with
      | mk k' v' =>
          by_cases hk : k' = k
          · have hstep : eraseS ((k', v') :: tl) k = eraseS tl k := by
              unfold eraseS
              simp [List.filter_cons, hk]
            rw [hstep]
            exact ih
          · have hstep : eraseS ((k', v') :: tl) k = (k', v') :: eraseS tl k := by
              unfold eraseS
              simp [List.filter_cons, hk]
            rw [hstep]
            unfold lookupS
            rw [if_neg hk]
            exact ih

theorem nodupKeys_eq {α : Type} {m : List (String × α)} (h : (keysS m).Nodup)
    {k : String} {v₁ v₂ : α} (h₁ : (k, v₁) ∈ m) (h₂ : (k, v₂) ∈ m) : v₁ = v₂ := by
  induction m with
  | nil => cases h₁
  | cons hd tl ih =>
      unfold keysS at h ih
      simp only [List.map_cons, List.nodup_cons] at h
      rcases List.mem_cons.mp h₁ with heq₁ | h₁'
      · rcases List.mem_cons.mp h₂ with heq₂ | h₂'
        · rw [← heq₁] at heq₂
          cases heq₂
          rfl
        · exfalso
          apply h.1
          rw [← heq₁]
          exact List.mem_map.mpr ⟨(k, v₂), h₂', rfl⟩
      · rcases List.mem_cons.mp h₂ with heq₂ | h₂'
        · exfalso
          apply h.1
          rw [← heq₂]
          exact List.mem_map.mpr ⟨(k, v₁), h₁', rfl⟩
        · exact ih h.2 h₁' h₂'

theorem lookupS_mem {α : Type} {m : List (String × α)} {k : String} {v : α}
    (h : lookupS m k = some v) : (k, v) ∈ m := by
  induction m with
  | nil => cases h
  | cons hd tl ih =>
      unfold lookupS at h
      by_cases hk : hd.1 = k
      · rw [if_pos hk] at h
        cases hd with
        | mk k' v' =>
            cases h
            simp only at hk
            subst hk
            exact List.mem_cons_self _ _
      · rw [if_neg hk] at h
        exact List.mem_cons_of_mem _ (ih h)

/-! Claim C9 support: reload touches only the collector set. -/

theorem foldl_collector_frame {β : Type} (f : SystemState → β → SystemState)
    (h : ∀ s b, (f s b).evalCache = s.evalCache ∧ (f s b).engine = s.engine) :
    ∀ (l : List β) (s : SystemState),
      (l.foldl f s).evalCache = s.evalCache ∧ (l.foldl f s).engine = s.engine := by
  intro l
  induction l with
  | nil => intro s; exact ⟨rfl, rfl⟩
  | cons hd tl ih =>
      intro s
      simp only [List.foldl_cons]
      refine ⟨?_, ?_⟩
      · rw [(ih (f s hd)).1, (h s hd).1]
      · rw [(ih (f s hd)).2, (h s hd).2]

/-- C9: a configuration reload — successful or failed — leaves the
evaluator's observation cache and the alert engine's state (in particular
its active-alert table) exactly as they were; the reload closure mutates
only the collector set. -/
theorem C9_reload_preserves_cache_and_alerts :
    ∀ (sys : SystemState) (loadResult : Except String Config),
      (reloadFunc sys loadResult).1.evalCache = sys.evalCache ∧
      (reloadFunc sys loadResult).1.engine.activeAlerts = sys.engine.activeAlerts ∧
      (reloadFunc sys loadResult).1.engine = sys.engine := by
  intro sys loadResult
  cases loadResult with
  | error e => exact ⟨rfl, rfl, rfl⟩
  | ok newCfg =>
      have hrm : ∀ (s : SystemState) (b : String × CollectorHandle),
          ((fun (acc : SystemState) (entry : String × CollectorHandle) =>
            if (lookupS newCfg.desiredState.devices entry.1).isNone then
              { acc with collectors := eraseS acc.collectors entry.1,
                         closedGens := entry.2.generation :: acc.closedGens }
            else acc) s b).evalCache = s.evalCache ∧
          ((fun (acc : SystemState) (entry : String × CollectorHandle) =>
            if (lookupS newCfg.desiredState.devices entry.1).isNone then
              { acc with collectors := eraseS acc.collectors entry.1,
                         closedGens := entry.2.generation :: acc.closedGens }
            else acc) s b).engine = s.engine := by
        intro s b
        by_cases hb : (lookupS newCfg.desiredState.devices b.1).isNone <;>
          simp [hb]
      have hstart : ∀ (s : SystemState) (b : String × DeviceConfig),
          ((fun (acc : SystemState) (entry : String × DeviceConfig) =>
            startCollector acc entry.1 entry.2 newCfg) s b).evalCache = s.evalCache ∧
          ((fun (acc : SystemState) (entry : String × DeviceConfig) =>
            startCollector acc entry.1 entry.2 newCfg) s b).engine = s.engine := by
        intro s b
        cases hlk : lookupS s.collectors b.1 <;> simp [startCollector, hlk]
      have h1 := foldl_collector_frame _ hrm sys.collectors sys
      have h2 := foldl_collector_frame _ hstart newCfg.desiredState.devices
        (sys.collectors.foldl (fun acc entry =>
          if (lookupS newCfg.desiredState.devices entry.1).isNone then
            { acc with collectors := eraseS acc.collectors entry.1,
                       closedGens := entry.2.generation :: acc.closedGens }
          else acc) sys)
      refine ⟨?_, ?_, ?_⟩
      · exact h2.1.trans h1.1
      · rw [show (reloadFunc sys (Except.ok newCfg)).1.engine = sys.engine from h2.2.trans h1.2]
      · exact h2.2.trans h1.2

/-! Claim C10 support: the escalation manager as a state machine over its
four entry points. -/

inductive EscOp where
  | start (alert : Alert) (channels : List String)
  | cancel (device entity alertType : String)
  | stop
  | fire (key : String) (tok : Nat)
deriving DecidableEq, Repr

def escStep (m : EscState) : EscOp → EscState
  | .start alert channels => (StartEscalation m alert channels).1
  | .cancel d e t => CancelEscalation m d e t
  | .stop => EscStop m
  | .fire key tok => EscFire m key tok

def escInit (rules : List (String × Int)) : EscState :=
  { rules := rules, timers := [], nextToken := 0, cancelled := [], fired := [] }

def runEsc (rules : List (String × Int)) (ops : List EscOp) : EscState :=
  ops.foldl escStep (escInit rules)

theorem StartEscalation_timers_shape (m : EscState) (alert : Alert)
    (channels : List String) :
    (StartEscalation m alert channels).1.timers = m.timers ∨
    (StartEscalation m alert channels).1.timers =
      insertS m.timers (escKey alert.device alert.entity alert.alertType) m.nextToken := by
  simp only [StartEscalation]
  split
  · exact Or.inl rfl
  · cases lookupS m.timers (escKey alert.device alert.entity alert.alertType) <;>
      exact Or.inr rfl

theorem CancelEscalation_timers_shape (m : EscState) (d e t : String) :
    (CancelEscalation m d e t).timers = m.timers ∨
    (CancelEscalation m d e t).timers = eraseS m.timers (escKey d e t) := by
  simp only [CancelEscalation]
  cases lookupS m.timers (escKey d e t)
  · exact Or.inl rfl
  · exact Or.inr rfl

theorem EscFire_timers_shape (m : EscState) (key : String) (tok : Nat) :
    (EscFire m key tok).timers = m.timers ∨
    (EscFire m key tok).timers = eraseS m.timers key := by
  simp only [EscFire]
  split
  · exact Or.inl rfl
  · exact Or.inr rfl

theorem escStep_timers_nodup (m : EscState) (op : EscOp)
    (h : (keysS m.timers).Nodup) : (keysS (escStep m op).timers).Nodup := by
  cases op with
  | start alert channels =>
      rcases StartEscalation_timers_shape m alert channels with hs | hs <;>
        simp only [escStep, hs]
      · exact h
      · exact keysS_insertS_nodup _ _ _ h
  | cancel d e t =>
      rcases CancelEscalation_timers_shape m d e t with hs | hs <;>
        simp only [escStep, hs]
      · exact h
      · exact keysS_eraseS_nodup _ _ h
  | stop =>
      simp only [escStep, EscStop]
      exact List.nodup_nil
  | fire key tok =>
      rcases EscFire_timers_shape m key tok with hs | hs <;>
        simp only [escStep, hs]
      · exact h
      · exact keysS_eraseS_nodup _ _ h

theorem runEsc_timers_nodup (rules : List (String × Int)) (ops : List EscOp) :
    (keysS (runEsc rules ops).timers).Nodup := by
  unfold runEsc
  have hgen : ∀ (l : List EscOp) (m : EscState),
      (keysS m.timers).Nodup → (keysS (l.foldl escStep m).timers).Nodup := by
    intro l
    induction l with
    | nil => intro m hm; exact hm
    | cons hd tl ih =>
        intro m hm
        simp only [List.foldl_cons]
        exact ih _ (escStep_timers_nodup m hd hm)
  exact hgen ops (escInit rules) List.nodup_nil

/-- C10: the escalation manager keeps at most one pending timer per alert
identity: the timer map reachable from an empty manager through any
sequence of StartEscalation / CancelEscalation / Stop / timer-fire
operations has pairwise-distinct keys (so a key holds at most one timer);
StartEscalation on an identity with an existing timer cancels the old
timer and installs the fresh one; CancelEscalation removes and cancels
the identity's timer; Stop cancels and removes every timer; and an
uncancelled timer that fires removes its own map entry. -/
theorem C10_escalation_one_timer_per_identity :
    (∀ (rules : List (String × Int)) (ops : List EscOp),
      (keysS (runEsc rules ops).timers).Nodup ∧
      ∀ (k : String) (t₁ t₂ : Nat),
        (k, t₁) ∈ (runEsc rules ops).timers → (k, t₂) ∈ (runEsc rules ops).timers →
        t₁ = t₂) ∧
    (∀ (m : EscState) (alert : Alert) (channels : List String) (tokOld : Nat)
        (info : String × Int × List String),
      lookupS m.timers (escKey alert.device alert.entity alert.alertType) = some tokOld →
      (StartEscalation m alert channels).2 = some info →
      tokOld ∈ (StartEscalation m alert channels).1.cancelled ∧
      lookupS (StartEscalation m alert channels).1.timers
        (escKey alert.device alert.entity alert.alertType) = some m.nextToken) ∧
    (∀ (m : EscState) (d e t : String),
      lookupS (CancelEscalation m d e t).timers (escKey d e t) = none ∧
      ∀ tokOld, lookupS m.timers (escKey d e t) = some tokOld →
        tokOld ∈ (CancelEscalation m d e t).cancelled) ∧
    (∀ (m : EscState), (EscStop m).timers = [] ∧
      ∀ p ∈ m.timers, p.2 ∈ (EscStop m).cancelled) ∧
    (∀ (m : EscState) (key : String) (tok : Nat), tok ∉ m.cancelled →
      lookupS (EscFire m key tok).timers key = none ∧
      tok ∈ (EscFire m key tok).fired) := by
  refine ⟨?_, ?_, ?_, ?_, ?_⟩
  · intro rules ops
    refine ⟨runEsc_timers_nodup rules ops, ?_⟩
    intro k t₁ t₂ h₁ h₂
    exact nodupKeys_eq (runEsc_timers_nodup rules ops) h₁ h₂
  · intro m alert channels tokOld info hlk hinst
    simp only [StartEscalation] at hinst ⊢
    split at hinst
    · simp at hinst
    next hcond =>
      rw [hlk] at hinst ⊢
      rw [if_neg hcond]
      exact ⟨List.mem_cons_self _ _, lookupS_insertS_self _ _ _⟩
  · intro m d e t
    simp only [CancelEscalation]
    cases hlk : lookupS m.timers (escKey d e t) with
    | none =>
        refine ⟨hlk, ?_⟩
        intro tokOld h
        cases h
    | some tok =>
        refine ⟨lookupS_eraseS_self _ _, ?_⟩
        intro tokOld h
        cases h
        exact List.mem_cons_self _ _
  · intro m
    refine ⟨rfl, ?_⟩
    intro p hp
    simp only [EscStop]
    exact List.mem_append_left _ (List.mem_map.mpr ⟨p, hp, rfl⟩)
  · intro m key tok hcanc
    simp only [EscFire]
    rw [if_neg hcanc]
    exact ⟨lookupS_eraseS_self _ _, List.mem_cons_self _ _⟩

def escSampleAlert : Alert :=
  mkFiringAlert ⟨"d1", "Gi1/0/1", "interface_state_mismatch", "critical", true, "m", []⟩ 0

def escSampleState : EscState :=
  { rules := [("pager", 5)]
    timers := [("d1|Gi1/0/1|interface_state_mismatch", 7)]
    nextToken := 8
    cancelled := []
    fired := [] }

/-- C10 witness: concrete instantiation of the invariant theorem — a
manager with one pager rule and a pending timer (token 7) for
d1/Gi1/0/1/interface_state_mismatch, on which a restart cancels the old
timer and installs token 8, and an uncancelled fire removes the entry. -/
theorem C10_escalation_witness :
    ((keysS (runEsc [("pager", 5)] [EscOp.start escSampleAlert ["pager"]]).timers).Nodup) ∧
    (7 ∈ (StartEscalation escSampleState escSampleAlert ["pager"]).1.cancelled ∧
      lookupS (StartEscalation escSampleState escSampleAlert ["pager"]).1.timers
        (escKey "d1" "Gi1/0/1" "interface_state_mismatch") = some 8) ∧
    (lookupS (EscFire escSampleState "d1|Gi1/0/1|interface_state_mismatch" 7).timers
        "d1|Gi1/0/1|interface_state_mismatch" = none ∧
      7 ∈ (EscFire escSampleState "d1|Gi1/0/1|interface_state_mismatch" 7).fired) :=
  ⟨(C10_escalation_one_timer_per_identity.1 [("pager", 5)]
      [EscOp.start escSampleAlert ["pager"]]).1,
   C10_escalation_one_timer_per_identity.2.1 escSampleState escSampleAlert ["pager"] 7
     ("d1|Gi1/0/1|interface_state_mismatch", 5, ["pager"]) (by decide) (by decide),
   C10_escalation_one_timer_per_identity.2.2.2.2 escSampleState
     "d1|Gi1/0/1|interface_state_mismatch" 7 (by decide)⟩

/-! Claim C8 support: the alert identity, the well-formedness invariant of
the active-alert table, and the alert types the evaluator can emit. -/

def alertIdentity (a : Alert) : String × String × String :=
  (a.device, a.entity, a.alertType)

def evaluatorAlertTypes : List String :=
  [alertTypeInterfaceMismatch, alertTypeInterfaceAdminDown,
   alertTypeChannelDown, alertTypeMemberDown]

def alertRegularKey (a : Alert) : String :=
  a.device ++ "|" ++ a.entity ++ "|" ++ a.alertType

def alertFlapKey (a : Alert) : String :=
  "flap|" ++ (a.device ++ "|" ++ a.entity)

/-- An entry of the active-alert table is firing and stored under the key
its own identity determines (the regular `d|e|t` key, or the `flap|d|e`
key for the synthetic flapping alert). -/
def entryConsistent (k : String) (a : Alert) : Prop :=
  a.state = "firing" ∧
  ((a.alertType ≠ "flapping_detected" ∧ k = alertRegularKey a) ∨
   (a.alertType = "flapping_detected" ∧ k = alertFlapKey a))

def tableWF (t : List (String × Alert)) : Prop :=
  (keysS t).Nodup ∧ ∀ p ∈ t, entryConsistent p.1 p.2

/-- Engine inputs occurring in the deployed pipeline: events carry one of
the evaluator's alert types (never the synthetic flapping type). -/
def engineOpOk : EngineOp → Prop
  | .event ev _ => ev.alertType ∈ evaluatorAlertTypes
  | .sweep _ => True
  | .escFire _ _ => True

instance engineOpOkDecidable : DecidablePred engineOpOk := fun op =>
  match op with
  | .event ev now =>
      (inferInstanceAs (Decidable (ev.alertType ∈ evaluatorAlertTypes)) :
        Decidable (engineOpOk (.event ev now)))
  | .sweep now => (inferInstanceAs (Decidable True) : Decidable (engineOpOk (.sweep now)))
  | .escFire k t =>
      (inferInstanceAs (Decidable True) : Decidable (engineOpOk (.escFire k t)))

theorem tableWF_insertS {t : List (String × Alert)} {k : String} {a : Alert}
    (h : tableWF t) (ha : entryConsistent k a) : tableWF (insertS t k a) := by
  refine ⟨keysS_insertS_nodup _ _ _ h.1, ?_⟩
  intro p hp
  rcases mem_insertS hp with rfl | hpm
  · exact ha
  · exact h.2 p hpm

theorem tableWF_eraseS {t : List (String × Alert)} {k : String}
    (h : tableWF t) : tableWF (eraseS t k) :=
  ⟨keysS_eraseS_nodup _ _ h.1, fun p hp => h.2 p (mem_eraseS hp)⟩

/-- process changes the table in exactly one of four ways: not at all,
inserting the synthetic flap alert under its flap key, inserting the
event's alert under its identity key, or erasing the identity key. -/
theorem engineProcess_table_shape (cfg : Config) (s : EngineState)
    (ev : AlertEvent) (now : Int) :
    (engineProcess cfg s ev now).activeAlerts = s.activeAlerts ∨
    (engineProcess cfg s ev now).activeAlerts =
      insertS s.activeAlerts ("flap|" ++ entityKeyOf ev) (mkFlapAlert ev now) ∨
    (engineProcess cfg s ev now).activeAlerts =
      insertS s.activeAlerts (engineKey ev) (mkFiringAlert ev now) ∨
    (engineProcess cfg s ev now).activeAlerts = eraseS s.activeAlerts (engineKey ev) := by
  simp only [engineProcess]
  repeat' split
  all_goals
    first
      | exact Or.inl rfl
      | exact Or.inr (Or.inl rfl)
      | exact Or.inr (Or.inr (Or.inl rfl))
      | exact Or.inr (Or.inr (Or.inr rfl))

theorem engineProcess_tableWF (cfg : Config) (s : EngineState) (ev : AlertEvent)
    (now : Int) (hty : ev.alertType ∈ evaluatorAlertTypes)
    (hwf : tableWF s.activeAlerts) :
    tableWF (engineProcess cfg s ev now).activeAlerts := by
  rcases engineProcess_table_shape cfg s ev now with h | h | h | h <;> rw [h]
  · exact hwf
  · exact tableWF_insertS hwf ⟨rfl, Or.inr ⟨rfl, rfl⟩⟩
  · refine tableWF_insertS hwf ⟨rfl, Or.inl ⟨?_, rfl⟩⟩
    intro hcontra
    rw [show (mkFiringAlert ev now).alertType = ev.alertType from rfl] at hcontra
    rw [hcontra] at hty
    exact absurd hty (by decide)
  · exact tableWF_eraseS hwf

theorem flapRecoveryStep_table_shape (cfg : Config) (now : Int)
    (s : EngineState) (entry : String × Alert) :
    (flapRecoveryStep cfg now s entry).activeAlerts = s.activeAlerts ∨
    (flapRecoveryStep cfg now s entry).activeAlerts = eraseS s.activeAlerts entry.1 := by
  simp only [flapRecoveryStep]
  repeat' split
  all_goals first | exact Or.inl rfl | exact Or.inr rfl

theorem checkFlapRecovery_tableWF (cfg : Config) (s : EngineState) (now : Int)
    (hwf : tableWF s.activeAlerts) :
    tableWF (checkFlapRecovery cfg s now).activeAlerts := by
  unfold checkFlapRecovery
  have hgen : ∀ (entries : List (String × Alert)) (s : EngineState),
      tableWF s.activeAlerts →
      tableWF ((entries.foldl (flapRecoveryStep cfg now) s)).activeAlerts := by
    intro entries
    induction entries with
    | nil => intro s h; exact h
    | cons hd tl ih =>
        intro s h
        simp only [List.foldl_cons]
        apply ih
        rcases flapRecoveryStep_table_shape cfg now s hd with hs | hs <;> rw [hs]
        · exact h
        · exact tableWF_eraseS h
  exact hgen s.activeAlerts s hwf

theorem engineSweep_tableWF (cfg : Config) (s : EngineState) (now : Int)
    (hwf : tableWF s.activeAlerts) :
    tableWF (engineSweep cfg s now).activeAlerts := by
  unfold engineSweep
  split
  · exact checkFlapRecovery_tableWF cfg _ now hwf
  · exact hwf

theorem engineStep_tableWF (cfg : Config) (s : EngineState) (op : EngineOp)
    (hop : engineOpOk op) (hwf : tableWF s.activeAlerts) :
    tableWF (engineStep cfg s op).activeAlerts := by
  cases op with
  | event ev now => exact engineProcess_tableWF cfg s ev now hop hwf
  | sweep now => exact engineSweep_tableWF cfg s now hwf
  | escFire key tok =>
      simp only [engineStep]
      split
      · exact hwf
      · exact hwf

theorem runEngine_tableWF (cfg : Config) (ops : List EngineOp)
    (hops : ∀ op ∈ ops, engineOpOk op) :
    tableWF (runEngine cfg ops).activeAlerts := by
  unfold runEngine
  have hgen : ∀ (l : List EngineOp) (s : EngineState),
      (∀ op ∈ l, engineOpOk op) → tableWF s.activeAlerts →
      tableWF ((l.foldl (engineStep cfg) s)).activeAlerts := by
    intro l
    induction l with
    | nil => intro s _ h; exact h
    | cons hd tl ih =>
        intro s hl h
        simp only [List.foldl_cons]
        exact ih _ (fun op hop => hl op (List.mem_cons_of_mem _ hop))
          (engineStep_tableWF cfg s hd (hl hd (List.mem_cons_self _ _)) h)
  exact hgen ops (NewEngine cfg) hops ⟨List.nodup_nil, fun p hp => absurd hp (List.not_mem_nil p)⟩

/-! Claim C8 support: every StateChange the evaluator emits carries one of
the four evaluator alert types. -/

theorem evaluateAdminChange_type {d i : String} {cfg : InterfaceConfig}
    {prev st : InterfaceState} {c : StateChange}
    (h : evaluateAdminChange d i cfg prev st = some c) :
    c.alertType = alertTypeInterfaceAdminDown := by
  simp only [evaluateAdminChange] at h
  by_cases h1 : cfg.adminState = ""
  · rw [if_pos h1] at h; cases h
  · rw [if_neg h1] at h
    by_cases h2 : normalizeState cfg.adminState ∉ supportedAdminStates
    · rw [if_pos h2] at h; cases h
    · rw [if_neg h2] at h
      by_cases h3 : prev.adminStatus = st.adminStatus
      · rw [if_pos h3] at h; cases h
      · rw [if_neg h3] at h
        by_cases h4 : st.adminStatus = "" ∨ st.adminStatus = normalizeState cfg.adminState
        · rw [if_pos h4] at h; cases h
        · rw [if_neg h4] at h
          cases h
          rfl

theorem evaluateOperChange_type {d i : String} {cfg : InterfaceConfig}
    {st : InterfaceState} {c : StateChange}
    (h : evaluateOperChange d i cfg st = some c) :
    c.alertType = alertTypeInterfaceMismatch := by
  simp only [evaluateOperChange] at h
  by_cases h1 : cfg.desiredState = ""
  · rw [if_pos h1] at h; cases h
  · rw [if_neg h1] at h
    by_cases h2 : normalizeState cfg.desiredState ∉ supportedOperStates
    · rw [if_pos h2] at h; cases h
    · rw [if_neg h2] at h
      by_cases h3 : cfg.adminState ≠ "" ∧
          normalizeState cfg.adminState ∈ supportedAdminStates ∧
          st.adminStatus ≠ "" ∧ st.adminStatus ≠ normalizeState cfg.adminState
      · rw [if_pos h3] at h; cases h
      · rw [if_neg h3] at h
        by_cases h4 : st.operStatus = ""
        · rw [if_pos h4] at h; cases h
        · rw [if_neg h4] at h
          by_cases h5 : st.operStatus ≠ normalizeState cfg.desiredState
          · rw [if_pos h5] at h
            cases h
            rfl
          · rw [if_neg h5] at h; cases h

theorem evaluateChannelMembers_types {cache : List (String × InterfaceState)}
    {d ch : String} {cfg : InterfaceConfig} {c : StateChange}
    (hc : c ∈ evaluateChannelMembers cache d ch cfg) :
    c.alertType = alertTypeMemberDown ∨ c.alertType = alertTypeChannelDown := by
  simp only [evaluateChannelMembers] at hc
  repeat' split at hc
  all_goals
    first
      | (rcases List.mem_singleton.mp hc with rfl; exact Or.inl rfl)
      | (rcases List.mem_singleton.mp hc with rfl; exact Or.inr rfl)
      | cases hc

theorem mem_foldl_append {α β : Type} (g : β → List α) :
    ∀ (l : List β) (acc : List α) (c : α),
      c ∈ l.foldl (fun acc b => acc ++ g b) acc → c ∈ acc ∨ ∃ b, b ∈ l ∧ c ∈ g b := by
  intro l
  induction l with
  | nil => intro acc c hc; exact Or.inl hc
  | cons hd tl ih =>
      intro acc c hc
      rcases ih (acc ++ g hd) c hc with h | ⟨b, hb, hcb⟩
      · rcases List.mem_append.mp h with h | h
        · exact Or.inl h
        · exact Or.inr ⟨hd, List.mem_cons_self _ _, h⟩
      · exact Or.inr ⟨b, List.mem_cons_of_mem _ hb, hcb⟩

theorem evaluatePortChannel_types {cache : List (String × InterfaceState)}
    {d i : String} {devCfg : DeviceConfig} {c : StateChange}
    (hc : c ∈ evaluatePortChannel cache d i devCfg) :
    c.alertType = alertTypeMemberDown ∨ c.alertType = alertTypeChannelDown := by
  simp only [evaluatePortChannel] at hc
  rcases mem_foldl_append _ _ _ _ hc with h | ⟨b, _, hcb⟩
  · cases h
  · revert hcb
    cases lookupS devCfg.interfaces b with
    | none => intro hcb; cases hcb
    | some channelCfg => intro hcb; exact evaluateChannelMembers_types hcb

theorem foldl_changes_pred {σ α β : Type} (P : α → Prop)
    (f : σ × List α → β → σ × List α)
    (hf : ∀ acc b c, c ∈ (f acc b).2 → c ∈ acc.2 ∨ P c) :
    ∀ (l : List β) (acc : σ × List α) (c : α),
      c ∈ (l.foldl f acc).2 → c ∈ acc.2 ∨ P c := by
  intro l
  induction l with
  | nil => intro acc c hc; exact Or.inl hc
  | cons hd tl ih =>
      intro acc c hc
      rcases ih (f acc hd) c hc with h | h
      · exact hf acc hd c h
      · exact Or.inr h

theorem evalUpdateStep_types (cfg : Config) (dev : String) (now : Int)
    (acc : List (String × InterfaceState) × List StateChange)
    (update : GnmiUpdate) (c : StateChange)
    (hc : c ∈ (evalUpdateStep cfg dev now acc update).2) :
    c ∈ acc.2 ∨ c.alertType ∈ evaluatorAlertTypes := by
  simp only [evalUpdateStep] at hc
  repeat' split at hc
  all_goals simp only [List.mem_append, List.mem_singleton] at hc
  all_goals repeat' rcases hc with hc | hc
  all_goals
    first
      | exact Or.inl hc
      | exact Or.inr (by rw [evaluateAdminChange_type (by assumption)]; decide)
      | exact Or.inr (by rw [evaluateOperChange_type (by assumption)]; decide)
      | (rcases evaluatePortChannel_types hc with ht | ht <;>
           exact Or.inr (by rw [ht]; decide))

/-- C8: for every alert identity (device, entity, kind) the engine's
active-alert table holds at most one firing alert at any instant: every
table entry is firing, and two entries with the same identity are the
same entry, for every state reachable through any sequence of engine
operations (event processing — firing and resolving —, flap sweeps with
flap-alert synthesis and recovery, and escalation timer fires) whose
events carry evaluator alert types; and the evaluator only ever emits
those alert types, so the hypothesis holds for the deployed pipeline. -/
theorem C8_at_most_one_firing_per_identity :
    (∀ (cfg : Config) (ops : List EngineOp),
      (∀ op ∈ ops, engineOpOk op) →
      (∀ p ∈ (runEngine cfg ops).activeAlerts, p.2.state = "firing") ∧
      (∀ p ∈ (runEngine cfg ops).activeAlerts,
        ∀ q ∈ (runEngine cfg ops).activeAlerts,
          alertIdentity p.2 = alertIdentity q.2 → p = q)) ∧
    (∀ (cfg : Config) (cache : List (String × InterfaceState)) (dev : String)
        (n : Notification) (now : Int),
      ∀ c ∈ (EvaluateNotification cfg cache dev n now).2,
        c.alertType ∈ evaluatorAlertTypes) := by
  constructor
  · intro cfg ops hops
    have hwf := runEngine_tableWF cfg ops hops
    refine ⟨fun p hp => (hwf.2 p hp).1, ?_⟩
    rintro ⟨pk, pa⟩ hp ⟨qk, qa⟩ hq hid
    have hcp := hwf.2 (pk, pa) hp
    have hcq := hwf.2 (qk, qa) hq
    dsimp only at hcp hcq
    simp only [alertIdentity, Prod.mk.injEq] at hid
    obtain ⟨hdev, hent, hty⟩ := hid
    have hkey : pk = qk := by
      rcases hcp.2 with ⟨hpne, hpk⟩ | ⟨hpeq, hpk⟩
      · rcases hcq.2 with ⟨hqne, hqk⟩ | ⟨hqeq, hqk⟩
        · rw [hpk, hqk]
          unfold alertRegularKey
          rw [hdev, hent, hty]
        · exact absurd (hty.trans hqeq) hpne
      · rcases hcq.2 with ⟨hqne, hqk⟩ | ⟨hqeq, hqk⟩
        · exact absurd (hty.symm.trans hpeq) hqne
        · rw [hpk, hqk]
          unfold alertFlapKey
          rw [hdev, hent]
    rw [hkey] at hp
    have hal : pa = qa := nodupKeys_eq hwf.1 hp hq
    rw [hkey, hal]
  · intro cfg cache dev n now c hc
    unfold EvaluateNotification at hc
    rcases foldl_changes_pred (fun c => c.alertType ∈ evaluatorAlertTypes)
      (evalUpdateStep cfg dev now)
      (fun acc b c hcc => evalUpdateStep_types cfg dev now acc b c hcc)
      n.updates (cache, []) c hc with h | h
    · cases h
    · exact h

/-- Engine inputs exercising the firing, resolving and sweep operations
for the C8 witness. -/
def c8SampleOps : List EngineOp :=
  [.event ⟨"d1", "Gi1/0/1", "interface_state_mismatch", "critical", true, "down", []⟩ 0,
   .event ⟨"d1", "Gi1/0/1", "interface_state_mismatch", "critical", false, "up", []⟩ 5,
   .sweep 30]

/-- C8 witness: the invariant instantiated on a concrete run containing a
firing event, a resolve event, and a sweep. -/
theorem C8_witness :
    (∀ op ∈ c8SampleOps, engineOpOk op) ∧
    (∀ p ∈ (runEngine scenarioDConfig c8SampleOps).activeAlerts, p.2.state = "firing") ∧
    (∀ p ∈ (runEngine scenarioDConfig c8SampleOps).activeAlerts,
      ∀ q ∈ (runEngine scenarioDConfig c8SampleOps).activeAlerts,
        alertIdentity p.2 = alertIdentity q.2 → p = q) :=
  ⟨by decide,
   (C8_at_most_one_firing_per_identity.1 scenarioDConfig c8SampleOps (by decide)).1,
   (C8_at_most_one_firing_per_identity.1 scenarioDConfig c8SampleOps (by decide)).2⟩

/-- C6 witness: the characterization of Connect applied to the concrete
outcome sequence [failure, success]. -/
theorem C6_connect_witness :
    (connectLoop [false, true] = Except.ok () ↔ true ∈ [false, true]) ∧
    connectAttempts [false, true] =
      (([false, true].takeWhile (fun b => !b)).length +
        if true ∈ [false, true] then 1 else 0) :=
  ⟨(C6_connect_retries_until_success_or_cancel [false, true]).1,
   (C6_connect_retries_until_success_or_cancel [false, true]).2.2.1⟩

end NetSpec
